import Mathlib

/-!
Verification of the Drift (rate & trend detector) and Consensus (TMR voter)
state machines of `c-from-scratch` (projects/drift, projects/consensus).

The repository ships the demo drivers (`src/main.c`) and the contract test
suites (`tests/test_drift.c`, `tests/test_consensus.c`) but not the core
implementation files (`drift.c` / `consensus.c`); the FSMs below are
therefore modelled from the specification's update algorithms (spec §4.1,
§4.2), with every behavioural choice cross-checked against the expectations
asserted in the shipped test suites.  Doubles are modelled as exact
rationals, with non-finite values (NaN, ±Inf) represented explicitly:
the C code only ever distinguishes finite from non-finite via `isfinite`.
-/

/-- Modelled from the spec: a C `double` input as seen by the FSMs.  The code
(missing `drift.c`/`consensus.c`) only tests values with `isfinite`/`isnan`;
NaN and ±Inf are all handled identically, so a value is either a finite
rational or a non-finite marker. -/
inductive FP where
  | fin (q : ℚ)
  | nonfin
deriving DecidableEq

/-! ## Drift FSM (spec §3.1, §4.1; modelled from the spec, missing `drift.c`) -/

inductive DriftState where
  | LEARNING
  | STABLE
  | DRIFTING_UP
  | DRIFTING_DOWN
  | FAULT
deriving DecidableEq

inductive DriftErr where
  | OK
  | ERR_NULL
  | ERR_CONFIG
  | ERR_DOMAIN
  | ERR_TEMPORAL
  | ERR_FAULT
deriving DecidableEq

/-- Modelled from the spec: `drift_config_t` (missing `drift.h`).  `alpha ∈ (0,1]`,
`max_safe_slope > 0`, `upper_limit > lower_limit`, `n_min ≥ 2` are validated at
`drift_init`. -/
structure DriftConfig where
  alpha : ℚ
  max_safe_slope : ℚ
  upper_limit : ℚ
  lower_limit : ℚ
  n_min : ℕ
  max_gap : ℕ
  reset_on_gap : Bool
deriving DecidableEq

/-- Modelled from the spec: `drift_fsm_t` (missing `drift.h`).  `inited` is the
spec's `initialized` flag (set after the first accepted sample). -/
structure DriftFsm where
  state : DriftState
  n : ℕ
  ema_value : ℚ
  slope : ℚ
  last_value : ℚ
  last_ts : ℕ
  inited : Bool
  fault_sticky : Bool
  config : DriftConfig
deriving DecidableEq

/-- Modelled from the spec: config validation performed by `drift_init`
(missing `drift.c`; the accepted/rejected ranges are pinned down by
`test_edge_config_validation` in `tests/test_drift.c`). -/
def drift_config_ok (cfg : DriftConfig) : Bool :=
  decide (0 < cfg.alpha) && decide (cfg.alpha ≤ 1) &&
  decide (0 < cfg.max_safe_slope) &&
  decide (cfg.lower_limit < cfg.upper_limit) &&
  decide (2 ≤ cfg.n_min)

/-- Modelled from the spec: the zeroed state produced by `drift_init` /
`drift_reset` (missing `drift.c`): `state = LEARNING`, counters and EMAs
cleared, fault cleared, config preserved. -/
def drift_fresh (cfg : DriftConfig) : DriftFsm :=
  { state := .LEARNING, n := 0, ema_value := 0, slope := 0, last_value := 0,
    last_ts := 0, inited := false, fault_sticky := false, config := cfg }

/-- Modelled from the spec: `drift_init` (missing `drift.c`); validates the
config and returns the zeroed FSM (`none` stands for `ERR_CONFIG`). -/
def drift_init (cfg : DriftConfig) : Option DriftFsm :=
  if drift_config_ok cfg then some (drift_fresh cfg) else none

/-- Modelled from the spec: `drift_reset` (missing `drift.c`): clears state,
fault and counter, preserves config (`test_edge_reset_clears_faults` pins
`n = 0`, `state = LEARNING`, `initialized = false`, fault cleared). -/
def drift_reset (d : DriftFsm) : DriftFsm :=
  drift_fresh d.config

/-- Modelled from the spec: classification step 9 of the `drift_update`
algorithm (missing `drift.c`): LEARNING below `n_min`, otherwise STABLE /
DRIFTING_UP / DRIFTING_DOWN by slope magnitude and sign. -/
def drift_classify (cfg : DriftConfig) (n : ℕ) (slope : ℚ) : DriftState :=
  if n < cfg.n_min then .LEARNING
  else if |slope| ≤ cfg.max_safe_slope then .STABLE
  else if 0 < slope then .DRIFTING_UP
  else .DRIFTING_DOWN

/-- Modelled from the spec: `drift_update` (missing `drift.c`), steps 1-9 of
the update algorithm in spec §4.1, in the spec's order:
sticky-fault short circuit; non-finite input latches FAULT and returns
`ERR_DOMAIN` without counting the sample; non-increasing timestamp returns
`ERR_TEMPORAL` without mutation; a gap above `max_gap` with `reset_on_gap`
re-seeds the EMAs from the new sample (`n = 1`, LEARNING); the first sample
seeds the EMAs; otherwise both EMAs blend with factor `alpha` and the state
is reclassified.  Behaviour at every branch matches the expectations of
`tests/test_drift.c`. -/
def drift_update (d : DriftFsm) (value : FP) (ts : ℕ) : DriftErr × DriftFsm :=
  if d.fault_sticky then (.ERR_FAULT, d)
  else
    match value with
    | .nonfin => (.ERR_DOMAIN, { d with fault_sticky := true, state := .FAULT })
    | .fin v =>
      if d.inited ∧ ts ≤ d.last_ts then (.ERR_TEMPORAL, d)
      else if d.inited ∧ d.config.max_gap < ts - d.last_ts ∧ d.config.reset_on_gap then
        (.OK, { d with ema_value := v, slope := 0, last_value := v, last_ts := ts,
                       n := 1, state := .LEARNING })
      else if d.inited = false then
        (.OK, { d with ema_value := v, slope := 0, last_value := v, last_ts := ts,
                       n := 1, inited := true, state := .LEARNING })
      else
        let dt : ℚ := ((ts - d.last_ts : ℕ) : ℚ)
        let raw_slope : ℚ := (v - d.last_value) / dt
        let ema' : ℚ := d.config.alpha * v + (1 - d.config.alpha) * d.ema_value
        let slope' : ℚ := d.config.alpha * raw_slope + (1 - d.config.alpha) * d.slope
        (.OK, { d with ema_value := ema', slope := slope', n := d.n + 1,
                       last_value := v, last_ts := ts,
                       state := drift_classify d.config (d.n + 1) slope' })

/-! ## Consensus FSM (spec §3.2, §4.2; modelled from the spec, missing `consensus.c`) -/

inductive SensorHealth where
  | HEALTHY
  | DEGRADED
  | FAULTY
deriving DecidableEq

/-- Modelled from the spec: `sensor_input_t` (missing `consensus.h`): one
per-tick `(value, health)` pair. -/
structure SensorInput where
  value : FP
  health : SensorHealth
deriving DecidableEq

inductive ConsensusState where
  | INIT
  | AGREE
  | DISAGREE
  | DEGRADED
  | NO_QUORUM
  | FAULT
deriving DecidableEq

inductive ConsensusErr where
  | OK
  | ERR_NULL
  | ERR_CONFIG
  | ERR_QUORUM
  | ERR_FAULT
deriving DecidableEq

/-- Modelled from the spec: `consensus_config_t` (missing `consensus.h`).
`max_deviation > 0` and `tie_breaker ∈ {0,1,2}` are validated at init. -/
structure ConsensusConfig where
  max_deviation : ℚ
  tie_breaker : ℕ
  n_min : ℕ
  use_weighted_avg : Bool
deriving DecidableEq

/-- Modelled from the spec: `consensus_fsm_t` (missing `consensus.h`). -/
structure ConsensusFsm where
  state : ConsensusState
  last_value : ℚ
  n : ℕ
  fault_reentry : Bool
  config : ConsensusConfig
deriving DecidableEq

/-- Modelled from the spec: `consensus_result_t` (missing `consensus.h`);
`used0/1/2` are the `used[3]` indicator flags. -/
structure ConsensusResult where
  value : ℚ
  confidence : ℚ
  state : ConsensusState
  active_sensors : ℕ
  sensors_agree : Bool
  spread : ℚ
  valid : Bool
  used0 : Bool
  used1 : Bool
  used2 : Bool
deriving DecidableEq

/-- Modelled from the spec: a sensor is active iff its health is not FAULTY
and its value is finite (spec §4.2 step 2; `test_edge_nan_input` pins that a
NaN sensor is merely excluded). -/
def sensor_active (s : SensorInput) : Bool :=
  match s.value, s.health with
  | .fin _, .FAULTY => false
  | .fin _, _ => true
  | .nonfin, _ => false

/-- The finite rational carried by a sensor input (0 for non-finite inputs;
only ever read for active sensors, whose value is finite). -/
def sensor_q (s : SensorInput) : ℚ :=
  match s.value with
  | .fin q => q
  | .nonfin => 0

/-- Values of the active sensors, in ascending sensor-index order. -/
def active_vals (i0 i1 i2 : SensorInput) : List ℚ :=
  (if sensor_active i0 then [sensor_q i0] else []) ++
  (if sensor_active i1 then [sensor_q i1] else []) ++
  (if sensor_active i2 then [sensor_q i2] else [])

def active_count (i0 i1 i2 : SensorInput) : ℕ :=
  (active_vals i0 i1 i2).length

/-- Minimum of a value list (0 for the empty list, which no caller reaches). -/
def list_min : List ℚ → ℚ
  | [] => 0
  | x :: xs => xs.foldl min x

/-- Maximum of a value list (0 for the empty list, which no caller reaches). -/
def list_max : List ℚ → ℚ
  | [] => 0
  | x :: xs => xs.foldl max x

/-- Spread over the active sensors: `max(active) − min(active)` (spec §4.2
step 4). -/
def spread_of (i0 i1 i2 : SensorInput) : ℚ :=
  list_max (active_vals i0 i1 i2) - list_min (active_vals i0 i1 i2)

/-- Median of three values (the middle element after sorting). -/
def med3 (a b c : ℚ) : ℚ :=
  max (min a b) (min (max a b) c)

/-- Modelled from the spec: mid-value selection (spec §4.2 step 5, missing
`consensus.c`): the median of three actives; with exactly two actives the
`tie_breaker` sensor's value if it indexes an active sensor, otherwise the
mean of the two actives. -/
def mid_value (cfg : ConsensusConfig) (i0 i1 i2 : SensorInput) : ℚ :=
  match sensor_active i0, sensor_active i1, sensor_active i2 with
  | true, true, true => med3 (sensor_q i0) (sensor_q i1) (sensor_q i2)
  | true, true, false =>
      if cfg.tie_breaker = 0 then sensor_q i0
      else if cfg.tie_breaker = 1 then sensor_q i1
      else (sensor_q i0 + sensor_q i1) / 2
  | true, false, true =>
      if cfg.tie_breaker = 0 then sensor_q i0
      else if cfg.tie_breaker = 2 then sensor_q i2
      else (sensor_q i0 + sensor_q i2) / 2
  | false, true, true =>
      if cfg.tie_breaker = 1 then sensor_q i1
      else if cfg.tie_breaker = 2 then sensor_q i2
      else (sensor_q i1 + sensor_q i2) / 2
  | _, _, _ => 0

/-- Health weight used by the weighted-average vote: HEALTHY = 1,
DEGRADED = 1/2 (FAULTY sensors are excluded before weighting). -/
def health_weight : SensorHealth → ℚ
  | .HEALTHY => 1
  | .DEGRADED => 1 / 2
  | .FAULTY => 0

/-- Weight actually applied to a sensor: its health weight if active, 0
otherwise. -/
def sensor_w (s : SensorInput) : ℚ :=
  if sensor_active s then health_weight s.health else 0

/-- Modelled from the spec: weighted-average vote (spec §4.2 step 5, missing
`consensus.c`): `Σ wᵢ·vᵢ / Σ wᵢ` over the active sensors. -/
def weighted_value (i0 i1 i2 : SensorInput) : ℚ :=
  (sensor_w i0 * sensor_q i0 + sensor_w i1 * sensor_q i1 + sensor_w i2 * sensor_q i2) /
    (sensor_w i0 + sensor_w i1 + sensor_w i2)

/-- Modelled from the spec: the consensus value on a quorate tick (missing
`consensus.c`): mid-value selection by default, weighted average when
`use_weighted_avg` is set. -/
def consensus_value (cfg : ConsensusConfig) (i0 i1 i2 : SensorInput) : ℚ :=
  if cfg.use_weighted_avg then weighted_value i0 i1 i2 else mid_value cfg i0 i1 i2

/-- Number of active sensors tagged DEGRADED. -/
def degraded_active_count (i0 i1 i2 : SensorInput) : ℕ :=
  (if sensor_active i0 && (i0.health == SensorHealth.DEGRADED) then 1 else 0) +
  (if sensor_active i1 && (i1.health == SensorHealth.DEGRADED) then 1 else 0) +
  (if sensor_active i2 && (i2.health == SensorHealth.DEGRADED) then 1 else 0)

def clamp01 (q : ℚ) : ℚ := max 0 (min 1 q)

/-- Modelled from the spec: the confidence computation on a quorate tick
(spec §4.2 step 8, missing `consensus.c`): start from 1.0, subtract 0.25 per
DEGRADED active, 0.5 per excluded sensor, and a spread penalty proportional
to `spread/max_deviation` capped at 0.5, then clamp to [0,1].  The spec
leaves the proportionality constant open (§9 "Open question"); the constant
1/2 is chosen here, and no claim below depends on that choice. -/
def consensus_confidence (cfg : ConsensusConfig) (i0 i1 i2 : SensorInput) : ℚ :=
  clamp01 (1 - (1 / 4) * (degraded_active_count i0 i1 i2 : ℚ)
             - (1 / 2) * ((3 - active_count i0 i1 i2 : ℕ) : ℚ)
             - min (1 / 2) (spread_of i0 i1 i2 / (2 * cfg.max_deviation)))

/-- Modelled from the spec: the next state on a quorate tick (spec §4.2
step 7, missing `consensus.c`): DEGRADED if any active sensor is DEGRADED or
exactly two are active; otherwise AGREE iff the spread is within
`max_deviation`, else DISAGREE. -/
def consensus_next_state (cfg : ConsensusConfig) (i0 i1 i2 : SensorInput) : ConsensusState :=
  if degraded_active_count i0 i1 i2 ≠ 0 ∨ active_count i0 i1 i2 = 2 then .DEGRADED
  else if spread_of i0 i1 i2 ≤ cfg.max_deviation then .AGREE
  else .DISAGREE

/-- Modelled from the spec: config validation performed by `consensus_init`
(missing `consensus.c`; pinned by `test_edge_config_validation` in
`tests/test_consensus.c`). -/
def consensus_config_ok (cfg : ConsensusConfig) : Bool :=
  decide (0 < cfg.max_deviation) && decide (cfg.tie_breaker ≤ 2)

/-- Modelled from the spec: the state produced by `consensus_init` /
`consensus_reset` (missing `consensus.c`): `state = INIT`, `last_value`,
`n` and `fault_reentry` cleared, config preserved. -/
def consensus_fresh (cfg : ConsensusConfig) : ConsensusFsm :=
  { state := .INIT, last_value := 0, n := 0, fault_reentry := false, config := cfg }

/-- Modelled from the spec: `consensus_init` (missing `consensus.c`);
validates the config (`none` stands for `ERR_CONFIG`). -/
def consensus_init (cfg : ConsensusConfig) : Option ConsensusFsm :=
  if consensus_config_ok cfg then some (consensus_fresh cfg) else none

/-- Modelled from the spec: `consensus_reset` (missing `consensus.c`). -/
def consensus_reset (c : ConsensusFsm) : ConsensusFsm :=
  consensus_fresh c.config

/-- Modelled from the spec: `consensus_update` (missing `consensus.c`),
steps 1-9 of the voting algorithm in spec §4.2: sticky `fault_reentry` short
circuit (re-entry itself is a concurrency event outside this model, so the
flag is never set here); fewer than two active sensors yields NO_QUORUM with
the last emitted value at confidence 0.1 and `ERR_QUORUM`; otherwise the
vote, spread, agreement, state and confidence are computed and `last_value`
and `n` advance.  Behaviour at every branch matches the expectations of
`tests/test_consensus.c`.  On the `ERR_FAULT` path the result record is not
written by the C API; the unchanged-state placeholder below is never relied
upon by any theorem. -/
def consensus_update (c : ConsensusFsm) (i0 i1 i2 : SensorInput) :
    ConsensusErr × ConsensusFsm × ConsensusResult :=
  if c.fault_reentry then
    (.ERR_FAULT, c,
     { value := c.last_value, confidence := 0, state := c.state,
       active_sensors := 0, sensors_agree := false, spread := 0, valid := false,
       used0 := false, used1 := false, used2 := false })
  else if active_count i0 i1 i2 < 2 then
    (.ERR_QUORUM, { c with state := .NO_QUORUM },
     { value := c.last_value, confidence := 1 / 10, state := .NO_QUORUM,
       active_sensors := active_count i0 i1 i2, sensors_agree := false,
       spread := 0, valid := false,
       used0 := sensor_active i0, used1 := sensor_active i1, used2 := sensor_active i2 })
  else
    (.OK,
     { c with state := consensus_next_state c.config i0 i1 i2,
              last_value := consensus_value c.config i0 i1 i2,
              n := c.n + 1 },
     { value := consensus_value c.config i0 i1 i2,
       confidence := consensus_confidence c.config i0 i1 i2,
       state := consensus_next_state c.config i0 i1 i2,
       active_sensors := active_count i0 i1 i2,
       sensors_agree := decide (spread_of i0 i1 i2 ≤ c.config.max_deviation),
       spread := spread_of i0 i1 i2, valid := true,
       used0 := sensor_active i0, used1 := sensor_active i1, used2 := sensor_active i2 })

/-- One tick's externally visible output: error code and result record. -/
def consensus_tick_out (c : ConsensusFsm) (i0 i1 i2 : SensorInput) :
    ConsensusErr × ConsensusResult :=
  ((consensus_update c i0 i1 i2).1, (consensus_update c i0 i1 i2).2.2)

/-- Run a whole input sequence through the voter, collecting each tick's
output and the final FSM state. -/
def consensus_run (c : ConsensusFsm) :
    List (SensorInput × SensorInput × SensorInput) →
      List (ConsensusErr × ConsensusResult) × ConsensusFsm
  | [] => ([], c)
  | (i0, i1, i2) :: rest =>
    let step := consensus_update c i0 i1 i2
    let tail := consensus_run step.2.1 rest
    ((step.1, step.2.2) :: tail.1, tail.2)

/-! ## Helper lemmas -/

/-- The median of three values lies between the minimum and maximum of any
two of them. -/
lemma med3_pair_bounds (a b c : ℚ) :
    (min a b ≤ med3 a b c ∧ med3 a b c ≤ max a b) ∧
    (min a c ≤ med3 a b c ∧ med3 a b c ≤ max a c) ∧
    (min b c ≤ med3 a b c ∧ med3 a b c ≤ max b c) := by
  simp only [med3, min_def, max_def]
  split_ifs <;>
    refine ⟨⟨by linarith, by linarith⟩, ⟨by linarith, by linarith⟩,
      ⟨by linarith, by linarith⟩⟩

/-- A two-point weighted average with nonnegative weights of positive sum
lies between the two values. -/
lemma wavg2_bounds (w0 w1 v0 v1 : ℚ) (h0 : 0 ≤ w0) (h1 : 0 ≤ w1)
    (hs : 0 < w0 + w1) :
    min v0 v1 ≤ (w0 * v0 + w1 * v1) / (w0 + w1) ∧
    (w0 * v0 + w1 * v1) / (w0 + w1) ≤ max v0 v1 := by
  constructor
  · rw [le_div_iff₀ hs]
    have a0 : min v0 v1 ≤ v0 := min_le_left _ _
    have a1 : min v0 v1 ≤ v1 := min_le_right _ _
    nlinarith
  · rw [div_le_iff₀ hs]
    have a0 : v0 ≤ max v0 v1 := le_max_left _ _
    have a1 : v1 ≤ max v0 v1 := le_max_right _ _
    nlinarith

/-- A three-point weighted average with nonnegative weights of positive sum
lies between the least and the greatest of the three values. -/
lemma wavg3_bounds (w0 w1 w2 v0 v1 v2 : ℚ) (h0 : 0 ≤ w0) (h1 : 0 ≤ w1)
    (h2 : 0 ≤ w2) (hs : 0 < w0 + w1 + w2) :
    min (min v0 v1) v2 ≤ (w0 * v0 + w1 * v1 + w2 * v2) / (w0 + w1 + w2) ∧
    (w0 * v0 + w1 * v1 + w2 * v2) / (w0 + w1 + w2) ≤ max (max v0 v1) v2 := by
  constructor
  · rw [le_div_iff₀ hs]
    have a0 : min (min v0 v1) v2 ≤ v0 := le_trans (min_le_left _ _) (min_le_left _ _)
    have a1 : min (min v0 v1) v2 ≤ v1 := le_trans (min_le_left _ _) (min_le_right _ _)
    have a2 : min (min v0 v1) v2 ≤ v2 := min_le_right _ _
    nlinarith
  · rw [div_le_iff₀ hs]
    have a0 : v0 ≤ max (max v0 v1) v2 := le_trans (le_max_left _ _) (le_max_left _ _)
    have a1 : v1 ≤ max (max v0 v1) v2 := le_trans (le_max_right _ _) (le_max_left _ _)
    have a2 : v2 ≤ max (max v0 v1) v2 := le_max_right _ _
    nlinarith

/-- The arithmetic mean of two values lies between them. -/
lemma mean2_bounds (v0 v1 : ℚ) :
    min v0 v1 ≤ (v0 + v1) / 2 ∧ (v0 + v1) / 2 ≤ max v0 v1 := by
  rcases le_total v0 v1 with h | h <;>
    simp [min_def, max_def, h] <;>
    exact ⟨by linarith, by linarith⟩

/-- `clamp01` always lands in the unit interval. -/
lemma clamp01_mem (q : ℚ) : 0 ≤ clamp01 q ∧ clamp01 q ≤ 1 := by
  refine ⟨le_max_left _ _, max_le (by norm_num) ?_⟩
  exact min_le_left _ _

/-- An active sensor's health weight is at least 1/2 (it cannot be FAULTY). -/
lemma health_weight_active (s : SensorInput) (h : sensor_active s = true) :
    1 / 2 ≤ health_weight s.health := by
  cases hv : s.value <;> cases hh : s.health <;>
    simp [sensor_active, hv, hh, health_weight] at h ⊢ <;> norm_num

/-- An active sensor's applied weight equals its health weight. -/
lemma sensor_w_active (s : SensorInput) (h : sensor_active s = true) :
    sensor_w s = health_weight s.health := by
  simp [sensor_w, h]

/-- An inactive sensor's applied weight is 0. -/
lemma sensor_w_inactive (s : SensorInput) (h : sensor_active s = false) :
    sensor_w s = 0 := by
  simp [sensor_w, h]

/-- Applied weights are nonnegative. -/
lemma sensor_w_nonneg (s : SensorInput) : 0 ≤ sensor_w s := by
  unfold sensor_w
  split
  · cases hh : s.health <;> simp [health_weight]
  · exact le_refl 0

/-! ## Claim theorems: Drift -/

/-- C4: Drift sticky-fault discipline.  A non-faulted FSM fed a non-finite
value latches `fault_sticky`, enters FAULT, returns `ERR_DOMAIN` and does not
count the sample; any faulted FSM short-circuits every further update with
`ERR_FAULT` and no mutation; after `drift_reset` the fault is clear and a
normal update is accepted as a fresh first sample with `state = LEARNING`
and `n = 1`. -/
theorem drift_sticky_fault_discipline
    (d : DriftFsm) (ts ts' : ℕ) (w : ℚ)
    (hf : d.fault_sticky = false) :
    (drift_update d .nonfin ts).1 = .ERR_DOMAIN ∧
    (drift_update d .nonfin ts).2.fault_sticky = true ∧
    (drift_update d .nonfin ts).2.state = .FAULT ∧
    (drift_update d .nonfin ts).2.n = d.n ∧
    (∀ d' : DriftFsm, d'.fault_sticky = true →
       ∀ u t, drift_update d' u t = (.ERR_FAULT, d')) ∧
    ((drift_reset d).fault_sticky = false ∧
     (drift_update (drift_reset d) (.fin w) ts').1 = .OK ∧
     (drift_update (drift_reset d) (.fin w) ts').2.state = .LEARNING ∧
     (drift_update (drift_reset d) (.fin w) ts').2.n = 1) := by
  refine ⟨?_, ?_, ?_, ?_, ?_, ?_, ?_, ?_, ?_⟩
  · simp [drift_update, hf]
  · simp [drift_update, hf]
  · simp [drift_update, hf]
  · simp [drift_update, hf]
  · intro d' hd' u t
    simp [drift_update, hd']
  · simp [drift_reset, drift_fresh]
  · simp [drift_update, drift_reset, drift_fresh]
  · simp [drift_update, drift_reset, drift_fresh]
  · simp [drift_update, drift_reset, drift_fresh]

/-- Witness for C4 at a concrete faulted run. -/
theorem drift_sticky_fault_discipline_witness :
    (drift_fresh ⟨1/5, 1/20, 100, 0, 5, 10000, false⟩).fault_sticky = false ∧
    (drift_update (drift_fresh ⟨1/5, 1/20, 100, 0, 5, 10000, false⟩) .nonfin 1000).1 =
      .ERR_DOMAIN ∧
    (drift_update (drift_fresh ⟨1/5, 1/20, 100, 0, 5, 10000, false⟩) .nonfin 1000).2.n =
      (drift_fresh ⟨1/5, 1/20, 100, 0, 5, 10000, false⟩).n := by
  have h := drift_sticky_fault_discipline
    (drift_fresh ⟨1/5, 1/20, 100, 0, 5, 10000, false⟩) 1000 1100 50 (by decide)
  exact ⟨by decide, h.1, h.2.2.2.1⟩

/-- Concrete config used by the time-gap counterexample: `max_gap = 1000` ms
with `reset_on_gap` set, as in `test_edge_time_gap_reset`. -/
def cfgGap : DriftConfig :=
  { alpha := 1/2, max_safe_slope := 1, upper_limit := 100, lower_limit := 0,
    n_min := 3, max_gap := 1000, reset_on_gap := true }

/-- Two accepted samples at 1000 ms and 1100 ms under `cfgGap`. -/
def dGap2 : DriftFsm :=
  (drift_update (drift_update (drift_fresh cfgGap) (.fin 50) 1000).2 (.fin 50) 1100).2

/-- C5 counterexample: an accepted (OK) update across a time gap exceeding
`max_gap` with `reset_on_gap = true` drops `n` from 2 to 1, so `n` decreases
without a reset call and `n_new ≠ n_old + 1` on an accepted update. -/
theorem drift_monotonic_n_counterexample :
    dGap2.n = 2 ∧
    (drift_update dGap2 (.fin 60) 3200).1 = .OK ∧
    (drift_update dGap2 (.fin 60) 3200).2.n = 1 ∧
    ¬ ((drift_update dGap2 (.fin 60) 3200).2.n = dGap2.n + 1) ∧
    (drift_update dGap2 (.fin 60) 3200).2.n < dGap2.n := by
  refine ⟨by decide, by decide, by decide, by decide, by decide⟩

/-- C5 (amended): on a rejected update (fault, domain, temporal) `n` is
unchanged; on an accepted update `n` increments by 1 except on the two
re-seeding paths — the first sample after init/reset, and the
`reset_on_gap` auto-reset taken when the time gap exceeds `max_gap` — which
set `n = 1`. -/
theorem drift_n_discipline (d : DriftFsm) (value : FP) (ts : ℕ) :
    ((drift_update d value ts).1 ≠ .OK → (drift_update d value ts).2.n = d.n) ∧
    ((drift_update d value ts).1 = .OK →
       (drift_update d value ts).2.n = d.n + 1 ∨
       ((drift_update d value ts).2.n = 1 ∧
        (d.inited = false ∨
         (d.config.reset_on_gap = true ∧ d.config.max_gap < ts - d.last_ts)))) := by
  by_cases hf : d.fault_sticky
  · constructor
    · intro _; simp [drift_update, hf]
    · intro h; simp [drift_update, hf] at h
  · cases value with
    | nonfin =>
      constructor
      · intro _; simp [drift_update, hf]
      · intro h; simp [drift_update, hf] at h
    | fin v =>
      by_cases ht : d.inited ∧ ts ≤ d.last_ts
      · constructor
        · intro _; simp [drift_update, hf, ht]
        · intro h; simp [drift_update, hf, ht] at h
      · by_cases hg : d.inited ∧ d.config.max_gap < ts - d.last_ts ∧ d.config.reset_on_gap
        · have hin : d.inited = true := hg.1
          have hnts : ¬ ts ≤ d.last_ts := fun hh => ht ⟨hin, hh⟩
          constructor
          · intro h
            exact absurd (by simp [drift_update, hf, hin, hnts, hg.2.1, hg.2.2]) h
          · intro _
            right
            refine ⟨?_, Or.inr ⟨hg.2.2, hg.2.1⟩⟩
            simp [drift_update, hf, hin, hnts, hg.2.1, hg.2.2]
        · by_cases hi : d.inited = false
          · have hnt : ¬ (d.inited = true ∧ ts ≤ d.last_ts) := by simp [hi]
            constructor
            · intro h; exact absurd (by simp [drift_update, hf, hi]) h
            · intro _
              right
              exact ⟨by simp [drift_update, hf, hi], Or.inl hi⟩
          · have hin : d.inited = true := by
              cases hb : d.inited
              · exact absurd hb hi
              · rfl
            have hnts : ¬ ts ≤ d.last_ts := fun hh => ht ⟨hin, hh⟩
            have hng : ¬ (d.config.max_gap < ts - d.last_ts ∧ d.config.reset_on_gap = true) :=
              fun hh => hg ⟨hin, hh.1, hh.2⟩
            constructor
            · intro h
              exact absurd (by simp [drift_update, hf, hin, hnts, hng]) h
            · intro _
              left
              simp [drift_update, hf, hin, hnts, hng]

/-- Witness for C5's amended theorem: a regular accepted third sample
increments `n` from 2 to 3. -/
theorem drift_n_discipline_witness :
    (drift_update dGap2 (.fin 51) 1200).2.n = dGap2.n + 1 ∨
    ((drift_update dGap2 (.fin 51) 1200).2.n = 1 ∧
     (dGap2.inited = false ∨
      (dGap2.config.reset_on_gap = true ∧ dGap2.config.max_gap < 1200 - dGap2.last_ts))) :=
  (drift_n_discipline dGap2 (.fin 51) 1200).2 (by decide)

/-- C10: `drift_reset` erases temporal history as well as state: afterwards
`n = 0`, `state = LEARNING`, the fault flag and `initialized` are clear, and
the next update is accepted as a fresh first sample (`OK`, `n = 1`,
LEARNING) for every timestamp — including timestamps at or below any
previously accepted one, so strictly-increasing timestamps are only enforced
within a reset epoch. -/
theorem drift_reset_erases_history (d : DriftFsm) (v : ℚ) (ts : ℕ) :
    (drift_reset d).n = 0 ∧
    (drift_reset d).state = .LEARNING ∧
    (drift_reset d).fault_sticky = false ∧
    (drift_reset d).inited = false ∧
    (drift_update (drift_reset d) (.fin v) ts).1 = .OK ∧
    (drift_update (drift_reset d) (.fin v) ts).2.n = 1 ∧
    (drift_update (drift_reset d) (.fin v) ts).2.state = .LEARNING ∧
    (drift_update (drift_reset d) (.fin v) ts).2.last_ts = ts := by
  refine ⟨rfl, rfl, rfl, rfl, ?_, ?_, ?_, ?_⟩ <;>
    simp [drift_update, drift_reset, drift_fresh]

/-- Concrete steady-baseline FSM used by the spike-resistance witness:
baseline 50, zero smoothed slope, `alpha = 1/10`. -/
def dSteady : DriftFsm :=
  { state := .STABLE, n := 10, ema_value := 50, slope := 0, last_value := 50,
    last_ts := 1000, inited := true, fault_sticky := false,
    config := { alpha := 1/10, max_safe_slope := 10, upper_limit := 10000,
                lower_limit := -10000, n_min := 3, max_gap := 1000000,
                reset_on_gap := false } }

/-- C6: spike resistance.  For an established FSM on a steady baseline
(smoothed slope at most a tenth of the outlier's raw slope — the share of
the stated 10% tolerance), a single outlier `v` arriving `ts − last_ts = dt`
milliseconds after the previous sample moves the smoothed slope by at most
`α · (|v − last_value| / dt) · 1.1`, because the update blends
`slope ← α·raw_slope + (1−α)·slope`. -/
theorem drift_spike_resistance
    (d : DriftFsm) (v : ℚ) (ts : ℕ)
    (hα : 0 < d.config.alpha)
    (hf : d.fault_sticky = false)
    (hi : d.inited = true)
    (hts : d.last_ts < ts)
    (hgap : ¬ (d.config.max_gap < ts - d.last_ts ∧ d.config.reset_on_gap = true))
    (hsteady : |d.slope| ≤ |v - d.last_value| / (10 * ((ts - d.last_ts : ℕ) : ℚ))) :
    |(drift_update d (.fin v) ts).2.slope - d.slope| ≤
      d.config.alpha * (|v - d.last_value| / ((ts - d.last_ts : ℕ) : ℚ)) * (11 / 10) := by
  have hnts : ¬ ts ≤ d.last_ts := not_le.mpr hts
  have hdt : (0 : ℚ) < ((ts - d.last_ts : ℕ) : ℚ) := by
    have : 0 < ts - d.last_ts := Nat.sub_pos_of_lt hts
    exact_mod_cast this
  set dt : ℚ := ((ts - d.last_ts : ℕ) : ℚ) with hdtdef
  set a : ℚ := d.config.alpha with hadef
  have hslope :
      (drift_update d (.fin v) ts).2.slope =
        a * ((v - d.last_value) / dt) + (1 - a) * d.slope := by
    simp [drift_update, hf, hi, hnts, hgap]
  rw [hslope]
  have hdiff :
      a * ((v - d.last_value) / dt) + (1 - a) * d.slope - d.slope =
        a * ((v - d.last_value) / dt - d.slope) := by ring
  rw [hdiff, abs_mul, abs_of_pos hα]
  have hraw : |(v - d.last_value) / dt| = |v - d.last_value| / dt := by
    rw [abs_div, abs_of_pos hdt]
  have htri : |(v - d.last_value) / dt - d.slope| ≤
      |(v - d.last_value) / dt| + |d.slope| := abs_sub _ _
  have hsum : |(v - d.last_value) / dt| + |d.slope| ≤
      |v - d.last_value| / dt * (11 / 10) := by
    rw [hraw]
    have hten : |v - d.last_value| / (10 * dt) = |v - d.last_value| / dt * (1 / 10) := by
      rw [mul_comm 10 dt, ← div_div]
      ring
    have := hsteady
    rw [hten] at this
    linarith
  calc a * |(v - d.last_value) / dt - d.slope|
      ≤ a * (|v - d.last_value| / dt * (11 / 10)) := by
        exact mul_le_mul_of_nonneg_left (le_trans htri hsum) (le_of_lt hα)
    _ = a * (|v - d.last_value| / dt) * (11 / 10) := by ring

/-- Witness for C6: the test suite's spike (baseline 50, spike to 1050 after
100 ms, `alpha = 1/10`): the slope moves by exactly 1 ≤ 1.1. -/
theorem drift_spike_resistance_witness :
    |(drift_update dSteady (.fin 1050) 1100).2.slope - dSteady.slope| ≤
      dSteady.config.alpha * (|(1050 : ℚ) - dSteady.last_value| /
        ((1100 - dSteady.last_ts : ℕ) : ℚ)) * (11 / 10) :=
  drift_spike_resistance dSteady 1050 1100 (by norm_num [dSteady]) rfl rfl
    (by norm_num [dSteady]) (by norm_num [dSteady]) (by norm_num [dSteady])

/-! ## Claim theorems: Consensus -/

/-- The quorate-tick next state is never NO_QUORUM. -/
lemma consensus_next_state_ne_noquorum (cfg : ConsensusConfig) (i0 i1 i2 : SensorInput) :
    consensus_next_state cfg i0 i1 i2 ≠ .NO_QUORUM := by
  unfold consensus_next_state
  split_ifs <;> simp

/-- C3: determinism of the voter.  The model realizes the spec's "pure
arithmetic on the three inputs plus immutable config; no time source, no
RNG": two freshly-initialized FSMs with the same config fed identical input
sequences produce identical output traces (error, value, state, confidence —
the whole result record) and identical final FSM states. -/
theorem consensus_deterministic (cfg : ConsensusConfig)
    (seq1 seq2 : List (SensorInput × SensorInput × SensorInput))
    (h : seq1 = seq2) :
    consensus_run (consensus_fresh cfg) seq1 = consensus_run (consensus_fresh cfg) seq2 := by
  rw [h]

/-- Witness for C3 at a concrete two-tick sequence. -/
theorem consensus_deterministic_witness :
    consensus_run (consensus_fresh ⟨1, 0, 0, false⟩)
      [(⟨.fin 10, .HEALTHY⟩, ⟨.fin 20, .HEALTHY⟩, ⟨.fin 15, .HEALTHY⟩),
       (⟨.fin 10, .HEALTHY⟩, ⟨.fin 20, .HEALTHY⟩, ⟨.nonfin, .HEALTHY⟩)] =
    consensus_run (consensus_fresh ⟨1, 0, 0, false⟩)
      [(⟨.fin 10, .HEALTHY⟩, ⟨.fin 20, .HEALTHY⟩, ⟨.fin 15, .HEALTHY⟩),
       (⟨.fin 10, .HEALTHY⟩, ⟨.fin 20, .HEALTHY⟩, ⟨.nonfin, .HEALTHY⟩)] :=
  consensus_deterministic ⟨1, 0, 0, false⟩ _ _ rfl

/-- C9: the Consensus voter never latches FAULT because of its input values.
If the FSM is not already faulted, `consensus_update` leaves `fault_reentry`
clear and never returns `ERR_FAULT`, for every input vector (any NaN/Inf
values, any health tags): a non-finite or FAULTY-tagged sensor is merely
excluded, the call returning OK when at least 2 sensors stay active and
`ERR_QUORUM` otherwise. -/
theorem consensus_inputs_never_fault
    (c : ConsensusFsm) (i0 i1 i2 : SensorInput)
    (hf : c.fault_reentry = false) :
    (consensus_update c i0 i1 i2).2.1.fault_reentry = false ∧
    (consensus_update c i0 i1 i2).1 ≠ .ERR_FAULT ∧
    (2 ≤ active_count i0 i1 i2 → (consensus_update c i0 i1 i2).1 = .OK) ∧
    (active_count i0 i1 i2 < 2 → (consensus_update c i0 i1 i2).1 = .ERR_QUORUM) := by
  by_cases hq : active_count i0 i1 i2 < 2
  · refine ⟨?_, ?_, ?_, ?_⟩
    · simp [consensus_update, hf, hq]
    · simp [consensus_update, hf, hq]
    · intro h2; omega
    · intro _; simp [consensus_update, hf, hq]
  · refine ⟨?_, ?_, ?_, ?_⟩
    · simp [consensus_update, hf, hq]
    · simp [consensus_update, hf, hq]
    · intro _; simp [consensus_update, hf, hq]
    · intro h2; omega

/-- Witness for C9: a NaN sensor plus two healthy sensors is a quorate OK
tick with no fault. -/
theorem consensus_inputs_never_fault_witness :
    (consensus_update (consensus_fresh ⟨1, 0, 0, false⟩)
       ⟨.fin 50, .HEALTHY⟩ ⟨.fin 50, .HEALTHY⟩ ⟨.nonfin, .HEALTHY⟩).2.1.fault_reentry = false ∧
    (consensus_update (consensus_fresh ⟨1, 0, 0, false⟩)
       ⟨.fin 50, .HEALTHY⟩ ⟨.fin 50, .HEALTHY⟩ ⟨.nonfin, .HEALTHY⟩).1 = .OK := by
  have h := consensus_inputs_never_fault (consensus_fresh ⟨1, 0, 0, false⟩)
    ⟨.fin 50, .HEALTHY⟩ ⟨.fin 50, .HEALTHY⟩ ⟨.nonfin, .HEALTHY⟩ rfl
  exact ⟨h.1, h.2.2.1 (by decide)⟩

/-- C8: no-quorum behaviour.  For a non-faulted FSM, a tick with fewer than
two active sensors returns `ERR_QUORUM`, drives the FSM state to NO_QUORUM
and emits the previously emitted value with confidence 0.1, zero spread,
`sensors_agree = false` and `valid = false`; conversely the updated state is
NO_QUORUM only when fewer than two sensors were active. -/
theorem consensus_no_quorum_behaviour
    (c : ConsensusFsm) (i0 i1 i2 : SensorInput)
    (hf : c.fault_reentry = false) :
    (active_count i0 i1 i2 < 2 →
       (consensus_update c i0 i1 i2).1 = .ERR_QUORUM ∧
       (consensus_update c i0 i1 i2).2.1.state = .NO_QUORUM ∧
       (consensus_update c i0 i1 i2).2.2.state = .NO_QUORUM ∧
       (consensus_update c i0 i1 i2).2.2.value = c.last_value ∧
       (consensus_update c i0 i1 i2).2.2.confidence = 1 / 10 ∧
       (consensus_update c i0 i1 i2).2.2.spread = 0 ∧
       (consensus_update c i0 i1 i2).2.2.sensors_agree = false ∧
       (consensus_update c i0 i1 i2).2.2.valid = false) ∧
    ((consensus_update c i0 i1 i2).2.1.state = .NO_QUORUM →
       active_count i0 i1 i2 < 2) := by
  by_cases hq : active_count i0 i1 i2 < 2
  · constructor
    · intro _
      refine ⟨?_, ?_, ?_, ?_, ?_, ?_, ?_, ?_⟩ <;> simp [consensus_update, hf, hq]
    · intro _; exact hq
  · constructor
    · intro h2; omega
    · intro hst
      exfalso
      apply consensus_next_state_ne_noquorum c.config i0 i1 i2
      have : (consensus_update c i0 i1 i2).2.1.state =
          consensus_next_state c.config i0 i1 i2 := by
        simp [consensus_update, hf, hq]
      rw [← this]
      exact hst

/-- Witness for C8: one healthy sensor and two FAULTY ones after a prior
quorate tick that set `last_value` to the median 75.2. -/
theorem consensus_no_quorum_behaviour_witness :
    (consensus_update (consensus_update (consensus_fresh ⟨1, 0, 0, false⟩)
        ⟨.fin 75, .HEALTHY⟩ ⟨.fin (151/2), .HEALTHY⟩ ⟨.fin (376/5), .HEALTHY⟩).2.1
      ⟨.fin 80, .HEALTHY⟩ ⟨.fin 0, .FAULTY⟩ ⟨.fin 0, .FAULTY⟩).1 = .ERR_QUORUM ∧
    (consensus_update (consensus_update (consensus_fresh ⟨1, 0, 0, false⟩)
        ⟨.fin 75, .HEALTHY⟩ ⟨.fin (151/2), .HEALTHY⟩ ⟨.fin (376/5), .HEALTHY⟩).2.1
      ⟨.fin 80, .HEALTHY⟩ ⟨.fin 0, .FAULTY⟩ ⟨.fin 0, .FAULTY⟩).2.1.state = .NO_QUORUM := by
  have h := consensus_no_quorum_behaviour
    (consensus_update (consensus_fresh ⟨1, 0, 0, false⟩)
        ⟨.fin 75, .HEALTHY⟩ ⟨.fin (151/2), .HEALTHY⟩ ⟨.fin (376/5), .HEALTHY⟩).2.1
    ⟨.fin 80, .HEALTHY⟩ ⟨.fin 0, .FAULTY⟩ ⟨.fin 0, .FAULTY⟩
    rfl
  exact ⟨(h.1 (by decide)).1, (h.1 (by decide)).2.1⟩

/-- C7: confidence contract.  The confidence carried by every emitted result
lies in [0,1]; and on a non-faulted tick whose three inputs are HEALTHY with
identical finite values (spread 0), the voter returns OK with confidence
exactly 1, `sensors_agree = true` and state AGREE. -/
theorem consensus_confidence_contract :
    (∀ (c : ConsensusFsm) (i0 i1 i2 : SensorInput),
       0 ≤ (consensus_update c i0 i1 i2).2.2.confidence ∧
       (consensus_update c i0 i1 i2).2.2.confidence ≤ 1) ∧
    (∀ (c : ConsensusFsm) (v : ℚ),
       c.fault_reentry = false → 0 < c.config.max_deviation →
       (consensus_update c ⟨.fin v, .HEALTHY⟩ ⟨.fin v, .HEALTHY⟩ ⟨.fin v, .HEALTHY⟩).1 =
         .OK ∧
       (consensus_update c ⟨.fin v, .HEALTHY⟩ ⟨.fin v, .HEALTHY⟩
         ⟨.fin v, .HEALTHY⟩).2.2.spread = 0 ∧
       (consensus_update c ⟨.fin v, .HEALTHY⟩ ⟨.fin v, .HEALTHY⟩
         ⟨.fin v, .HEALTHY⟩).2.2.confidence = 1 ∧
       (consensus_update c ⟨.fin v, .HEALTHY⟩ ⟨.fin v, .HEALTHY⟩
         ⟨.fin v, .HEALTHY⟩).2.2.sensors_agree = true ∧
       (consensus_update c ⟨.fin v, .HEALTHY⟩ ⟨.fin v, .HEALTHY⟩
         ⟨.fin v, .HEALTHY⟩).2.2.state = .AGREE) := by
  constructor
  · intro c i0 i1 i2
    by_cases hf : c.fault_reentry
    · constructor <;> simp [consensus_update, hf]
    · by_cases hq : active_count i0 i1 i2 < 2
      · constructor <;> simp [consensus_update, hf, hq] <;> norm_num
      · have hconf : (consensus_update c i0 i1 i2).2.2.confidence =
            consensus_confidence c.config i0 i1 i2 := by
          simp [consensus_update, hf, hq]
        rw [hconf]
        exact clamp01_mem _
  · intro c v hf hd
    have hs : sensor_active ⟨.fin v, .HEALTHY⟩ = true := rfl
    have hvals : active_vals ⟨.fin v, .HEALTHY⟩ ⟨.fin v, .HEALTHY⟩ ⟨.fin v, .HEALTHY⟩ =
        [v, v, v] := rfl
    have hact : active_count ⟨.fin v, .HEALTHY⟩ ⟨.fin v, .HEALTHY⟩ ⟨.fin v, .HEALTHY⟩ = 3 := by
      simp [active_count, hvals]
    have hq : ¬ active_count ⟨.fin v, .HEALTHY⟩ ⟨.fin v, .HEALTHY⟩
        ⟨.fin v, .HEALTHY⟩ < 2 := by
      rw [hact]; omega
    have hspread : spread_of ⟨.fin v, .HEALTHY⟩ ⟨.fin v, .HEALTHY⟩ ⟨.fin v, .HEALTHY⟩ = 0 := by
      simp [spread_of, hvals, list_min, list_max]
    have hdeg : degraded_active_count ⟨.fin v, .HEALTHY⟩ ⟨.fin v, .HEALTHY⟩
        ⟨.fin v, .HEALTHY⟩ = 0 := rfl
    have hconf : consensus_confidence c.config ⟨.fin v, .HEALTHY⟩ ⟨.fin v, .HEALTHY⟩
        ⟨.fin v, .HEALTHY⟩ = 1 := by
      rw [consensus_confidence, hdeg, hact, hspread]
      norm_num [clamp01]
    have hstate : consensus_next_state c.config ⟨.fin v, .HEALTHY⟩ ⟨.fin v, .HEALTHY⟩
        ⟨.fin v, .HEALTHY⟩ = .AGREE := by
      rw [consensus_next_state, hdeg, hact, hspread]
      simp [le_of_lt hd]
    refine ⟨?_, ?_, ?_, ?_, ?_⟩
    · simp [consensus_update, hf, hq]
    · simp [consensus_update, hf, hq, hspread]
    · simp [consensus_update, hf, hq, hconf]
    · simp [consensus_update, hf, hq, hspread, le_of_lt hd]
    · simp [consensus_update, hf, hq, hstate]

/-- Witness for C7: the test suite's all-identical tick (42, 42, 42). -/
theorem consensus_confidence_contract_witness :
    (consensus_update (consensus_fresh ⟨1, 0, 0, false⟩)
       ⟨.fin 42, .HEALTHY⟩ ⟨.fin 42, .HEALTHY⟩ ⟨.fin 42, .HEALTHY⟩).1 = .OK ∧
    (consensus_update (consensus_fresh ⟨1, 0, 0, false⟩)
       ⟨.fin 42, .HEALTHY⟩ ⟨.fin 42, .HEALTHY⟩ ⟨.fin 42, .HEALTHY⟩).2.2.confidence = 1 ∧
    (consensus_update (consensus_fresh ⟨1, 0, 0, false⟩)
       ⟨.fin 42, .HEALTHY⟩ ⟨.fin 42, .HEALTHY⟩ ⟨.fin 42, .HEALTHY⟩).2.2.state = .AGREE := by
  have h := consensus_confidence_contract.2 (consensus_fresh ⟨1, 0, 0, false⟩) 42
    rfl (by norm_num [consensus_fresh])
  exact ⟨h.1, h.2.2.1, h.2.2.2.2⟩

/-- On every quorate input pattern, the consensus value — in either voting
mode and for every tie-breaker — lies between the least and greatest active
value. -/
lemma consensus_value_bounds (cfg : ConsensusConfig) (i0 i1 i2 : SensorInput)
    (hact : 2 ≤ active_count i0 i1 i2) :
    list_min (active_vals i0 i1 i2) ≤ consensus_value cfg i0 i1 i2 ∧
    consensus_value cfg i0 i1 i2 ≤ list_max (active_vals i0 i1 i2) := by
  cases h0 : sensor_active i0 <;> cases h1 : sensor_active i1 <;>
    cases h2 : sensor_active i2
  · simp [active_count, active_vals, h0, h1, h2] at hact
  · simp [active_count, active_vals, h0, h1, h2] at hact
  · simp [active_count, active_vals, h0, h1, h2] at hact
  · -- only sensors 1 and 2 active
    have hvals : active_vals i0 i1 i2 = [sensor_q i1, sensor_q i2] := by
      simp [active_vals, h0, h1, h2]
    rw [hvals]
    show min (sensor_q i1) (sensor_q i2) ≤ consensus_value cfg i0 i1 i2 ∧
      consensus_value cfg i0 i1 i2 ≤ max (sensor_q i1) (sensor_q i2)
    unfold consensus_value
    by_cases hw : cfg.use_weighted_avg
    · simp only [hw, if_pos]
      unfold weighted_value
      rw [sensor_w_inactive i0 h0]
      have hw1 : (1 : ℚ) / 2 ≤ sensor_w i1 := by
        rw [sensor_w_active i1 h1]; exact health_weight_active i1 h1
      have hw2 : (1 : ℚ) / 2 ≤ sensor_w i2 := by
        rw [sensor_w_active i2 h2]; exact health_weight_active i2 h2
      have hb := wavg2_bounds (sensor_w i1) (sensor_w i2) (sensor_q i1) (sensor_q i2)
        (by linarith) (by linarith) (by linarith)
      constructor
      · calc min (sensor_q i1) (sensor_q i2)
            ≤ (sensor_w i1 * sensor_q i1 + sensor_w i2 * sensor_q i2) /
                (sensor_w i1 + sensor_w i2) := hb.1
          _ = (0 * sensor_q i0 + sensor_w i1 * sensor_q i1 + sensor_w i2 * sensor_q i2) /
                (0 + sensor_w i1 + sensor_w i2) := by ring_nf
      · calc (0 * sensor_q i0 + sensor_w i1 * sensor_q i1 + sensor_w i2 * sensor_q i2) /
                (0 + sensor_w i1 + sensor_w i2)
            = (sensor_w i1 * sensor_q i1 + sensor_w i2 * sensor_q i2) /
                (sensor_w i1 + sensor_w i2) := by ring_nf
          _ ≤ max (sensor_q i1) (sensor_q i2) := hb.2
    · simp only [hw, if_neg, Bool.false_eq_true, not_false_iff]
      simp only [mid_value, h0, h1, h2]
      split_ifs
      · exact ⟨min_le_left _ _, le_max_left _ _⟩
      · exact ⟨min_le_right _ _, le_max_right _ _⟩
      · exact mean2_bounds _ _
  · simp [active_count, active_vals, h0, h1, h2] at hact
  · -- only sensors 0 and 2 active
    have hvals : active_vals i0 i1 i2 = [sensor_q i0, sensor_q i2] := by
      simp [active_vals, h0, h1, h2]
    rw [hvals]
    show min (sensor_q i0) (sensor_q i2) ≤ consensus_value cfg i0 i1 i2 ∧
      consensus_value cfg i0 i1 i2 ≤ max (sensor_q i0) (sensor_q i2)
    unfold consensus_value
    by_cases hw : cfg.use_weighted_avg
    · simp only [hw, if_pos]
      unfold weighted_value
      rw [sensor_w_inactive i1 h1]
      have hw0 : (1 : ℚ) / 2 ≤ sensor_w i0 := by
        rw [sensor_w_active i0 h0]; exact health_weight_active i0 h0
      have hw2 : (1 : ℚ) / 2 ≤ sensor_w i2 := by
        rw [sensor_w_active i2 h2]; exact health_weight_active i2 h2
      have hb := wavg2_bounds (sensor_w i0) (sensor_w i2) (sensor_q i0) (sensor_q i2)
        (by linarith) (by linarith) (by linarith)
      constructor
      · calc min (sensor_q i0) (sensor_q i2)
            ≤ (sensor_w i0 * sensor_q i0 + sensor_w i2 * sensor_q i2) /
                (sensor_w i0 + sensor_w i2) := hb.1
          _ = (sensor_w i0 * sensor_q i0 + 0 * sensor_q i1 + sensor_w i2 * sensor_q i2) /
                (sensor_w i0 + 0 + sensor_w i2) := by ring_nf
      · calc (sensor_w i0 * sensor_q i0 + 0 * sensor_q i1 + sensor_w i2 * sensor_q i2) /
                (sensor_w i0 + 0 + sensor_w i2)
            = (sensor_w i0 * sensor_q i0 + sensor_w i2 * sensor_q i2) /
                (sensor_w i0 + sensor_w i2) := by ring_nf
          _ ≤ max (sensor_q i0) (sensor_q i2) := hb.2
    · simp only [hw, if_neg, Bool.false_eq_true, not_false_iff]
      simp only [mid_value, h0, h1, h2]
      split_ifs
      · exact ⟨min_le_left _ _, le_max_left _ _⟩
      · exact ⟨min_le_right _ _, le_max_right _ _⟩
      · exact mean2_bounds _ _
  · -- only sensors 0 and 1 active
    have hvals : active_vals i0 i1 i2 = [sensor_q i0, sensor_q i1] := by
      simp [active_vals, h0, h1, h2]
    rw [hvals]
    show min (sensor_q i0) (sensor_q i1) ≤ consensus_value cfg i0 i1 i2 ∧
      consensus_value cfg i0 i1 i2 ≤ max (sensor_q i0) (sensor_q i1)
    unfold consensus_value
    by_cases hw : cfg.use_weighted_avg
    · simp only [hw, if_pos]
      unfold weighted_value
      rw [sensor_w_inactive i2 h2]
      have hw0 : (1 : ℚ) / 2 ≤ sensor_w i0 := by
        rw [sensor_w_active i0 h0]; exact health_weight_active i0 h0
      have hw1 : (1 : ℚ) / 2 ≤ sensor_w i1 := by
        rw [sensor_w_active i1 h1]; exact health_weight_active i1 h1
      have hb := wavg2_bounds (sensor_w i0) (sensor_w i1) (sensor_q i0) (sensor_q i1)
        (by linarith) (by linarith) (by linarith)
      constructor
      · calc min (sensor_q i0) (sensor_q i1)
            ≤ (sensor_w i0 * sensor_q i0 + sensor_w i1 * sensor_q i1) /
                (sensor_w i0 + sensor_w i1) := hb.1
          _ = (sensor_w i0 * sensor_q i0 + sensor_w i1 * sensor_q i1 + 0 * sensor_q i2) /
                (sensor_w i0 + sensor_w i1 + 0) := by ring_nf
      · calc (sensor_w i0 * sensor_q i0 + sensor_w i1 * sensor_q i1 + 0 * sensor_q i2) /
                (sensor_w i0 + sensor_w i1 + 0)
            = (sensor_w i0 * sensor_q i0 + sensor_w i1 * sensor_q i1) /
                (sensor_w i0 + sensor_w i1) := by ring_nf
          _ ≤ max (sensor_q i0) (sensor_q i1) := hb.2
    · simp only [hw, if_neg, Bool.false_eq_true, not_false_iff]
      simp only [mid_value, h0, h1, h2]
      split_ifs
      · exact ⟨min_le_left _ _, le_max_left _ _⟩
      · exact ⟨min_le_right _ _, le_max_right _ _⟩
      · exact mean2_bounds _ _
  · -- all three active
    have hvals : active_vals i0 i1 i2 = [sensor_q i0, sensor_q i1, sensor_q i2] := by
      simp [active_vals, h0, h1, h2]
    rw [hvals]
    show min (min (sensor_q i0) (sensor_q i1)) (sensor_q i2) ≤
        consensus_value cfg i0 i1 i2 ∧
      consensus_value cfg i0 i1 i2 ≤ max (max (sensor_q i0) (sensor_q i1)) (sensor_q i2)
    unfold consensus_value
    by_cases hw : cfg.use_weighted_avg
    · simp only [hw, if_pos]
      unfold weighted_value
      have hw0 : (1 : ℚ) / 2 ≤ sensor_w i0 := by
        rw [sensor_w_active i0 h0]; exact health_weight_active i0 h0
      have hw1 : (1 : ℚ) / 2 ≤ sensor_w i1 := by
        rw [sensor_w_active i1 h1]; exact health_weight_active i1 h1
      have hw2 : (1 : ℚ) / 2 ≤ sensor_w i2 := by
        rw [sensor_w_active i2 h2]; exact health_weight_active i2 h2
      exact wavg3_bounds (sensor_w i0) (sensor_w i1) (sensor_w i2)
        (sensor_q i0) (sensor_q i1) (sensor_q i2)
        (by linarith) (by linarith) (by linarith) (by linarith)
    · simp only [hw, if_neg, Bool.false_eq_true, not_false_iff]
      simp only [mid_value, h0, h1, h2]
      have hb := (med3_pair_bounds (sensor_q i0) (sensor_q i1) (sensor_q i2)).1
      constructor
      · exact le_trans (min_le_left _ _) hb.1
      · exact le_trans hb.2 (le_max_left _ _)

/-- C2: bounded output.  On every non-faulted tick with at least two active
sensors, the consensus value returned by `consensus_update` lies between the
minimum and the maximum of the active values, in either voting mode. -/
theorem consensus_bounded_output
    (c : ConsensusFsm) (i0 i1 i2 : SensorInput)
    (hf : c.fault_reentry = false)
    (hact : 2 ≤ active_count i0 i1 i2) :
    list_min (active_vals i0 i1 i2) ≤ (consensus_update c i0 i1 i2).2.2.value ∧
    (consensus_update c i0 i1 i2).2.2.value ≤ list_max (active_vals i0 i1 i2) := by
  have hq : ¬ active_count i0 i1 i2 < 2 := by omega
  have hval : (consensus_update c i0 i1 i2).2.2.value =
      consensus_value c.config i0 i1 i2 := by
    simp [consensus_update, hf, hq]
  rw [hval]
  exact consensus_value_bounds c.config i0 i1 i2 hact

/-- Witness for C2 at the test suite's one-liar tick (100, 100.2, 99999). -/
theorem consensus_bounded_output_witness :
    list_min (active_vals ⟨.fin 100, .HEALTHY⟩ ⟨.fin (501/5), .HEALTHY⟩
        ⟨.fin 99999, .HEALTHY⟩) ≤
      (consensus_update (consensus_fresh ⟨1, 0, 0, false⟩) ⟨.fin 100, .HEALTHY⟩
        ⟨.fin (501/5), .HEALTHY⟩ ⟨.fin 99999, .HEALTHY⟩).2.2.value ∧
    (consensus_update (consensus_fresh ⟨1, 0, 0, false⟩) ⟨.fin 100, .HEALTHY⟩
        ⟨.fin (501/5), .HEALTHY⟩ ⟨.fin 99999, .HEALTHY⟩).2.2.value ≤
      list_max (active_vals ⟨.fin 100, .HEALTHY⟩ ⟨.fin (501/5), .HEALTHY⟩
        ⟨.fin 99999, .HEALTHY⟩) :=
  consensus_bounded_output (consensus_fresh ⟨1, 0, 0, false⟩) ⟨.fin 100, .HEALTHY⟩
    ⟨.fin (501/5), .HEALTHY⟩ ⟨.fin 99999, .HEALTHY⟩ rfl (by decide)

/-- Config with `use_weighted_avg = true` used by the C1 counterexample. -/
def cfgWeighted : ConsensusConfig :=
  { max_deviation := 1, tie_breaker := 0, n_min := 0, use_weighted_avg := true }

/-- C1 counterexample: with `use_weighted_avg = true`, two agreeing HEALTHY
inputs `a = b = 100` (|a−b| = 0 ≤ max_deviation) and a HEALTHY outlier
`c = 99999` produce the weighted mean 100199/3 ≈ 33399.7, far outside
`[min(a,b), max(a,b)] = [100, 100]` — the claim fails for the weighted
configuration. -/
theorem consensus_single_fault_counterexample :
    |(100 : ℚ) - 100| ≤ (consensus_fresh cfgWeighted).config.max_deviation ∧
    (consensus_update (consensus_fresh cfgWeighted) ⟨.fin 100, .HEALTHY⟩
        ⟨.fin 100, .HEALTHY⟩ ⟨.fin 99999, .HEALTHY⟩).1 = .OK ∧
    (consensus_update (consensus_fresh cfgWeighted) ⟨.fin 100, .HEALTHY⟩
        ⟨.fin 100, .HEALTHY⟩ ⟨.fin 99999, .HEALTHY⟩).2.2.value = 100199 / 3 ∧
    ¬ ((consensus_update (consensus_fresh cfgWeighted) ⟨.fin 100, .HEALTHY⟩
        ⟨.fin 100, .HEALTHY⟩ ⟨.fin 99999, .HEALTHY⟩).2.2.value ≤ max (100 : ℚ) 100) := by
  have hval : (consensus_update (consensus_fresh cfgWeighted) ⟨.fin 100, .HEALTHY⟩
      ⟨.fin 100, .HEALTHY⟩ ⟨.fin 99999, .HEALTHY⟩).2.2.value = 100199 / 3 := by
    simp [consensus_update, consensus_fresh, cfgWeighted, consensus_value,
      weighted_value, sensor_w, sensor_active, sensor_q, health_weight,
      active_count, active_vals]
    norm_num
  refine ⟨by norm_num [consensus_fresh, cfgWeighted], rfl, hval, ?_⟩
  rw [hval]
  norm_num

/-- C1 (amended): single-fault tolerance holds for the default mid-value
voting mode (`use_weighted_avg = false`): for HEALTHY inputs `a, b` with
`|a − b| ≤ max_deviation` and any HEALTHY third input `x`, wherever `x` is
placed among the three sensor slots the consensus value lies in
`[min(a,b), max(a,b)]`.  (In weighted mode the value can escape this
interval, as the counterexample shows.) -/
theorem consensus_single_fault_tolerance_midvalue
    (c : ConsensusFsm) (a b x : ℚ)
    (hf : c.fault_reentry = false)
    (hm : c.config.use_weighted_avg = false)
    (hab : |a - b| ≤ c.config.max_deviation) :
    (min a b ≤ (consensus_update c ⟨.fin a, .HEALTHY⟩ ⟨.fin b, .HEALTHY⟩
        ⟨.fin x, .HEALTHY⟩).2.2.value ∧
     (consensus_update c ⟨.fin a, .HEALTHY⟩ ⟨.fin b, .HEALTHY⟩
        ⟨.fin x, .HEALTHY⟩).2.2.value ≤ max a b) ∧
    (min a b ≤ (consensus_update c ⟨.fin a, .HEALTHY⟩ ⟨.fin x, .HEALTHY⟩
        ⟨.fin b, .HEALTHY⟩).2.2.value ∧
     (consensus_update c ⟨.fin a, .HEALTHY⟩ ⟨.fin x, .HEALTHY⟩
        ⟨.fin b, .HEALTHY⟩).2.2.value ≤ max a b) ∧
    (min a b ≤ (consensus_update c ⟨.fin x, .HEALTHY⟩ ⟨.fin a, .HEALTHY⟩
        ⟨.fin b, .HEALTHY⟩).2.2.value ∧
     (consensus_update c ⟨.fin x, .HEALTHY⟩ ⟨.fin a, .HEALTHY⟩
        ⟨.fin b, .HEALTHY⟩).2.2.value ≤ max a b) := by
  have hreduce : ∀ u v w : ℚ,
      (consensus_update c ⟨.fin u, .HEALTHY⟩ ⟨.fin v, .HEALTHY⟩
        ⟨.fin w, .HEALTHY⟩).2.2.value = med3 u v w := by
    intro u v w
    have hq : ¬ active_count ⟨.fin u, .HEALTHY⟩ ⟨.fin v, .HEALTHY⟩
        ⟨.fin w, .HEALTHY⟩ < 2 := by
      simp [active_count, active_vals, sensor_active]
    simp [consensus_update, hf, hq, consensus_value, hm, mid_value,
      sensor_active, sensor_q]
  refine ⟨?_, ?_, ?_⟩
  · rw [hreduce a b x]
    exact (med3_pair_bounds a b x).1
  · rw [hreduce a x b]
    exact (med3_pair_bounds a x b).2.1
  · rw [hreduce x a b]
    exact (med3_pair_bounds x a b).2.2

/-- Witness for C1's amended theorem at the test suite's one-liar inputs
(a = 100, b = 100.2, x = 99999 in the third slot). -/
theorem consensus_single_fault_tolerance_midvalue_witness :
    min (100 : ℚ) (501/5) ≤
      (consensus_update (consensus_fresh ⟨1, 0, 0, false⟩) ⟨.fin 100, .HEALTHY⟩
        ⟨.fin (501/5), .HEALTHY⟩ ⟨.fin 99999, .HEALTHY⟩).2.2.value ∧
    (consensus_update (consensus_fresh ⟨1, 0, 0, false⟩) ⟨.fin 100, .HEALTHY⟩
        ⟨.fin (501/5), .HEALTHY⟩ ⟨.fin 99999, .HEALTHY⟩).2.2.value ≤
      max (100 : ℚ) (501/5) :=
  (consensus_single_fault_tolerance_midvalue (consensus_fresh ⟨1, 0, 0, false⟩)
    100 (501/5) 99999 rfl rfl (by norm_num [consensus_fresh, abs_le])).1
